import Mathlib

/-!
Shallow embedding of `gnss_lib_py/utils/ephemeris_downloader.py`
(`EphemerisDownloader`): resolution of broadcast-ephemeris file
descriptors from a UTC timestamp and a constellation set, and the
download / decompress / cache state machine, with the filesystem and the
network modelled as explicit state.
-/

namespace EphemerisDownloader

/-! ## String helpers mirroring `os.path` -/

/-- Index of the last occurrence of `c` in `cs` (mirrors Python `str.rfind`,
with `none` for "not found"). -/
def lastIndexOfAux (c : Char) : List Char → Nat → Option Nat → Option Nat
  | [], _, acc => acc
  | x :: xs, i, acc => lastIndexOfAux c xs (i + 1) (if x == c then some i else acc)

def lastIndexOf (c : Char) (cs : List Char) : Option Nat :=
  lastIndexOfAux c cs 0 none

/-- Mirrors `os.path.splitext` (posix): split off the extension at the last
dot of the last path component, except when every character of the component
before that dot is itself a dot. -/
def splitext (p : String) : String × String :=
  let cs := p.data
  let base_start : Nat :=
    match lastIndexOf '/' cs with
    | some i => i + 1
    | none => 0
  match lastIndexOf '.' cs with
  | none => (p, "")
  | some d =>
    if d < base_start then (p, "")
    else if ((cs.take d).drop base_start).all (fun ch => ch == '.') then (p, "")
    else (String.mk (cs.take d), String.mk (cs.drop d))

def rstripSlashes (cs : List Char) : List Char :=
  (cs.reverse.dropWhile (fun ch => ch == '/')).reverse

/-- Mirrors `os.path.split` (posix): split at the last `/`; the head keeps
no trailing slashes unless it consists of slashes only. -/
def splitpath (p : String) : String × String :=
  match lastIndexOf '/' p.data with
  | none => ("", p)
  | some i =>
    let head := p.data.take (i + 1)
    let tail := p.data.drop (i + 1)
    if head.all (fun ch => ch == '/') then (String.mk head, String.mk tail)
    else (String.mk (rstripSlashes head), String.mk tail)

/-- Mirrors `os.path.join a b` for the relative components used here
(`"igs"`, `"nasa"`, remote file names — none is absolute). -/
def pathJoin (a b : String) : String :=
  if a == "" then b
  else if a.data.getLast? == some '/' then a ++ b
  else a ++ "/" ++ b

/-- Mirrors Python `str.zfill(3)` on the unsigned decimal strings used for
the day of year. -/
def zfill3 (s : String) : String :=
  if s.length ≥ 3 then s else String.mk (List.replicate (3 - s.length) '0') ++ s

/-- Mirrors Python `str[-2:]`: the last two characters (the whole string
when shorter). -/
def lastTwo (s : String) : String :=
  String.mk ((s.data.reverse.take 2).reverse)

/-! ## Timestamps

A timezone-aware UTC instant is modelled by the fields the source
consumes: `timestamp.timetuple()` supplies `tm_year` and `tm_yday`
(`get_filepaths`), and chronological comparison against
`datetime(2020, 12, 1, tzinfo=timezone.utc)` (`get_filetype`) coincides
with lexicographic comparison of `(tm_year, tm_yday, seconds-of-day)`
for calendar-valid instants. -/

structure Timestamp where
  tm_year : Nat
  tm_yday : Nat
  /-- seconds elapsed since the UTC midnight of the day. -/
  sec : Nat
deriving DecidableEq

/-- Chronological `a ≤ b` on UTC instants. -/
def tsLe (a b : Timestamp) : Prop :=
  a.tm_year < b.tm_year ∨
    (a.tm_year = b.tm_year ∧
      (a.tm_yday < b.tm_yday ∨ (a.tm_yday = b.tm_yday ∧ a.sec ≤ b.sec)))

/-- Chronological `a < b` on UTC instants. -/
def tsLt (a b : Timestamp) : Prop :=
  a.tm_year < b.tm_year ∨
    (a.tm_year = b.tm_year ∧
      (a.tm_yday < b.tm_yday ∨ (a.tm_yday = b.tm_yday ∧ a.sec < b.sec)))

instance (a b : Timestamp) : Decidable (tsLe a b) := by
  unfold tsLe; infer_instance

instance (a b : Timestamp) : Decidable (tsLt a b) := by
  unfold tsLt; infer_instance

/-- `datetime(2020, 12, 1, 0, 0, 0, tzinfo=timezone.utc)`: December 1st 2020
is day 336 of the leap year 2020. -/
def brdc_switch_time : Timestamp := ⟨2020, 336, 0⟩

/-- `EphemerisDownloader.get_filetype`: IGS switched from `.Z` to `.gz`
compression on December 1st, 2020; chosen by comparing the requested data
timestamp against that instant. -/
def get_filetype (timestamp : Timestamp) : String :=
  if tsLe brdc_switch_time timestamp then ".gz" else ".Z"

/-! ## File descriptors -/

/-- One entry of the `filepaths` dict built by `get_filepaths`:
`{'filepath': ..., 'url': ...}`. -/
structure FileInfo where
  filepath : String
  url : String
deriving DecidableEq

/-- The `filepaths` dict of `get_filepaths`, with its four keys. -/
structure Filepaths where
  nasa_daily_combined : FileInfo
  nasa_daily_gps : FileInfo
  nasa_daily_glonass : FileInfo
  bkg_daily_combined : FileInfo
deriving DecidableEq

/-- `filepaths.values()` in the dict's insertion order. -/
def Filepaths.values (fp : Filepaths) : List FileInfo :=
  [fp.nasa_daily_combined, fp.nasa_daily_gps, fp.nasa_daily_glonass,
   fp.bkg_daily_combined]

/-- `EphemerisDownloader.get_filepaths`: the four candidate remote files for
the UTC day of `timestamp`. -/
def get_filepaths (timestamp : Timestamp) : Filepaths :=
  let extension := get_filetype timestamp
  let year := toString timestamp.tm_year
  let yday := zfill3 (toString timestamp.tm_yday)
  let directory := "gnss/data/daily/" ++ year ++ "/brdc/"
  let nasa_daily_combined : FileInfo :=
    { filepath := directory ++ "BRDC00IGS_R_" ++ year ++ yday ++ "0000_01D_MN.rnx.gz"
      url := "gdc.cddis.eosdis.nasa.gov" }
  let nasa_daily_gps : FileInfo :=
    { filepath := directory ++ "brdc" ++ yday ++ "0." ++ lastTwo year ++ "n" ++ extension
      url := "gdc.cddis.eosdis.nasa.gov" }
  let nasa_daily_glonass : FileInfo :=
    { filepath := directory ++ "brdc" ++ yday ++ "0." ++ lastTwo year ++ "g" ++ extension
      url := "gdc.cddis.eosdis.nasa.gov" }
  let directory2 := "/IGS/BRDC/" ++ year ++ "/" ++ yday ++ "/"
  let bkg_daily_combined : FileInfo :=
    { filepath := directory2 ++ "BRDC00WRD_S_" ++ year ++ yday ++ "0000_01D_MN.rnx.gz"
      url := "igs-ftp.bkg.bund.de" }
  ⟨nasa_daily_combined, nasa_daily_gps, nasa_daily_glonass, bkg_daily_combined⟩

/-- `EphemerisDownloader.get_constellations`: a list of satellite ids is
mapped to the set of their first characters; any non-list input yields
`None`.  (Satellite ids are non-empty strings such as `"G01"`; for an empty
string Python would raise, the fallback character here is never consumed by
the claims.) -/
def get_constellations (satellites : Option (List String)) : Option (Finset Char) :=
  match satellites with
  | some sats => some (sats.foldl (fun systems sat => insert (sat.data.headD 'G') systems) ∅)
  | none => none

/-! ## The I/O state machine

The filesystem is the list of paths that exist; each FTP connection opened
is logged with its protocol, login state, data-channel protection and
whether it was closed before `retrieve_file` returned; `retrAttempts`
counts `RETR` transfers attempted.  The remote servers are an oracle
`remote : url → remote-path → Except errText Unit` standing for the
outcome of `ftp.retrbinary` (an `Except.error` is an
`ftplib.error_perm`). -/

inductive Protocol where
  | plain
  | tls
deriving DecidableEq

structure Connection where
  url : String
  protocol : Protocol
  loggedIn : Bool
  protPrivate : Bool
  closed : Bool
deriving DecidableEq

structure ArchiveState where
  files : List String
  connections : List Connection
  retrAttempts : Nat
deriving DecidableEq

/-- `open(path, 'wb')`: the path exists afterwards (truncating an existing
file does not duplicate it). -/
def addFile (p : String) (files : List String) : List String :=
  if p ∈ files then files else p :: files

/-- `os.remove(path)`: the path no longer exists. -/
def removeFile (p : String) (files : List String) : List String :=
  files.filter (fun q => q ≠ p)

/-- `EphemerisDownloader.connect`: `FTP_TLS(url); login(); prot_p()` when
`secure`, else `FTP(url); login()`. -/
def connect (url : String) (secure : Bool) : Connection :=
  if secure then
    { url := url, protocol := .tls, loggedIn := true, protPrivate := true, closed := false }
  else
    { url := url, protocol := .plain, loggedIn := true, protPrivate := false, closed := false }

/-- `ftp.quit()` / `ftp.close()` on the connection most recently opened. -/
def closeCurrent (s : ArchiveState) : ArchiveState :=
  match s.connections with
  | [] => s
  | c :: rest => { s with connections := { c with closed := true } :: rest }

/-- `EphemerisDownloader.decompress_file`: a `.gz` or `.Z` file is
decompressed next to itself (extension stripped), any other extension is
not decompressed at all; the compressed file is removed unconditionally. -/
def decompress_file (filepath : String) (s : ArchiveState) : ArchiveState :=
  let extension := (splitext filepath).2
  let decompressed_path := (splitext filepath).1
  let files1 :=
    if extension == ".gz" then addFile decompressed_path s.files
    else if extension == ".Z" then addFile decompressed_path s.files
    else s.files
  { s with files := removeFile filepath files1 }

/-- `EphemerisDownloader.retrieve_file`: connect (FTPS exactly for the
`gdc.cddis.eosdis.nasa.gov` host), open the destination for writing,
attempt the binary `RETR`; on `ftplib.error_perm` remove the destination
and re-raise with the remote path and host appended, on success quit and
close the connection and decompress the download. -/
def retrieve_file (remote : String → String → Except String Unit)
    (url directory filename dest_filepath : String)
    (s : ArchiveState) : Except String Unit × ArchiveState :=
  let secure := url == "gdc.cddis.eosdis.nasa.gov"
  let ftp := connect url secure
  let s1 := { s with connections := ftp :: s.connections }
  let src_filepath := directory ++ "/" ++ filename
  let s2 := { s1 with files := addFile dest_filepath s1.files
                      retrAttempts := s1.retrAttempts + 1 }
  match remote url src_filepath with
  | .error err =>
      (.error (err ++ " Failed to retrieve " ++ src_filepath ++ " from " ++ url),
       { s2 with files := removeFile dest_filepath s2.files })
  | .ok _ =>
      (.ok (), decompress_file dest_filepath (closeCurrent s2))

/-- The local destination path of `get_rinex_path`:
`<ephemeris_directory>/igs/<filename>` for the BKG host, else
`<ephemeris_directory>/nasa/<filename>`. -/
def dest_path (ephemeris_directory : String) (fileinfo : FileInfo) : String :=
  let filename := (splitpath fileinfo.filepath).2
  if fileinfo.url == "igs-ftp.bkg.bund.de" then
    pathJoin (pathJoin ephemeris_directory "igs") filename
  else
    pathJoin (pathJoin ephemeris_directory "nasa") filename

/-- The decompressed local path returned by `get_rinex_path`:
`os.path.splitext(dest_filepath)[0]`. -/
def rinex_path_of (ephemeris_directory : String) (fileinfo : FileInfo) : String :=
  (splitext (dest_path ephemeris_directory fileinfo)).1

/-- `EphemerisDownloader.get_rinex_path`: return the decompressed path
immediately when it exists on disk, otherwise retrieve the file first. -/
def get_rinex_path (remote : String → String → Except String Unit)
    (ephemeris_directory : String) (fileinfo : FileInfo)
    (s : ArchiveState) : Except String String × ArchiveState :=
  let directory := (splitpath fileinfo.filepath).1
  let filename := (splitpath fileinfo.filepath).2
  let dest_filepath := dest_path ephemeris_directory fileinfo
  let rinex_path := rinex_path_of ephemeris_directory fileinfo
  if rinex_path ∈ s.files then (.ok rinex_path, s)
  else
    match retrieve_file remote fileinfo.url directory filename dest_filepath s with
    | (.ok _, s') => (.ok rinex_path, s')
    | (.error e, s') => (.error e, s')

/-- The sequential `get_rinex_path` / `rinex_paths.append` loop of
`load_data`; a raised error aborts the remaining iterations (the state
keeps the effects already performed, as a propagating Python exception
would). -/
def get_paths_seq (remote : String → String → Except String Unit)
    (ephemeris_directory : String) :
    List FileInfo → ArchiveState → Except String (List String) × ArchiveState
  | [], s => (.ok [], s)
  | fi :: rest, s =>
    match get_rinex_path remote ephemeris_directory fi s with
    | (.ok p, s') =>
      match get_paths_seq remote ephemeris_directory rest s' with
      | (.ok ps, s'') => (.ok (p :: ps), s'')
      | (.error e, s'') => (.error e, s'')
    | (.error e, s') => (.error e, s')

/-- The descriptor-selection decision table of
`EphemerisDownloader.load_data`: `None` iterates over every value of the
`filepaths` dict; otherwise `legacy_systems_only` is
`len(constellations - {'G','R'}) == 0` and the branches follow the
source's `same_day` / membership tests in order. -/
def load_data_fileinfos (filepaths : Filepaths)
    (constellations : Option (Finset Char)) (same_day : Bool) : List FileInfo :=
  match constellations with
  | none => filepaths.values
  | some constellations =>
    let legacy_systems : Finset Char := {'G', 'R'}
    let legacy_systems_only := (constellations \ legacy_systems).card == 0
    if !same_day then
      if legacy_systems_only then
        (if 'G' ∈ constellations then [filepaths.nasa_daily_gps] else []) ++
        (if 'R' ∈ constellations then [filepaths.nasa_daily_glonass] else [])
      else
        [filepaths.nasa_daily_combined]
    else
      if legacy_systems_only ∧ 'G' ∈ constellations then
        [filepaths.nasa_daily_gps]
      else
        [filepaths.bkg_daily_combined]

/-- `EphemerisDownloader.load_data`: build the day's `filepaths`, select
descriptors per the decision table and realize each with
`get_rinex_path`, collecting the decompressed paths. -/
def load_data (remote : String → String → Except String Unit)
    (ephemeris_directory : String) (timestamp : Timestamp)
    (constellations : Option (Finset Char)) (same_day : Bool)
    (s : ArchiveState) : Except String (List String) × ArchiveState :=
  get_paths_seq remote ephemeris_directory
    (load_data_fileinfos (get_filepaths timestamp) constellations same_day) s

/-! ## Helper lemmas -/

theorem string_data_append (a b : String) : (a ++ b).data = a.data ++ b.data := by
  cases a; cases b; rfl

theorem string_append_assoc (a b c : String) : a ++ b ++ c = a ++ (b ++ c) := by
  cases a; cases b; cases c
  exact congrArg String.mk (List.append_assoc _ _ _)

/-- A successful `get_rinex_path` returns the decompressed path computed
from the descriptor alone. -/
theorem get_rinex_path_ok_path (remote : String → String → Except String Unit)
    (ephdir : String) (fi : FileInfo) (s : ArchiveState) (p : String)
    (h : (get_rinex_path remote ephdir fi s).1 = .ok p) :
    p = rinex_path_of ephdir fi := by
  by_cases hc : rinex_path_of ephdir fi ∈ s.files
  · simp only [get_rinex_path, if_pos hc] at h
    exact (Except.ok.injEq _ _ ▸ h).symm
  · simp only [get_rinex_path, if_neg hc] at h
    cases hr : retrieve_file remote fi.url (splitpath fi.filepath).1
        (splitpath fi.filepath).2 (dest_path ephdir fi) s with
    | mk r s' =>
      rw [hr] at h
      cases r with
      | ok u => simpa using h.symm
      | error e => simp at h

/-- A successful run of the `get_rinex_path` loop returns the decompressed
paths of the processed descriptors, in order. -/
theorem get_paths_seq_ok (remote : String → String → Except String Unit)
    (ephdir : String) :
    ∀ (fis : List FileInfo) (s : ArchiveState) (ps : List String),
      (get_paths_seq remote ephdir fis s).1 = .ok ps →
      ps = fis.map (rinex_path_of ephdir)
  | [], s, ps, h => by
      simp only [get_paths_seq] at h
      simpa using h.symm
  | fi :: rest, s, ps, h => by
      simp only [get_paths_seq] at h
      cases h1 : get_rinex_path remote ephdir fi s with
      | mk r s' =>
        rw [h1] at h
        cases r with
        | error e => simp at h
        | ok p =>
          dsimp only at h
          cases h2 : get_paths_seq remote ephdir rest s' with
          | mk r2 s'' =>
            rw [h2] at h
            cases r2 with
            | error e => simp at h
            | ok ps2 =>
              have hp : p = rinex_path_of ephdir fi :=
                get_rinex_path_ok_path remote ephdir fi s p (by rw [h1])
              have hrest : ps2 = rest.map (rinex_path_of ephdir) :=
                get_paths_seq_ok remote ephdir rest s' ps2 (by rw [h2])
              simp only [List.map]
              simp at h
              rw [← h, hp, hrest]

theorem gps_fileinfo_ne_bkg (t : Timestamp) :
    (get_filepaths t).nasa_daily_gps ≠ (get_filepaths t).bkg_daily_combined := by
  intro h
  have hurl : (get_filepaths t).nasa_daily_gps.url
      = (get_filepaths t).bkg_daily_combined.url := by rw [h]
  simp [get_filepaths] at hurl

theorem gps_fileinfo_ne_glonass (t : Timestamp) :
    (get_filepaths t).nasa_daily_gps ≠ (get_filepaths t).nasa_daily_glonass := by
  intro h
  have hfp : (get_filepaths t).nasa_daily_gps.filepath
      = (get_filepaths t).nasa_daily_glonass.filepath := by rw [h]
  simp only [get_filepaths] at hfp
  have hd := congrArg String.data hfp
  simp only [string_data_append, List.append_assoc] at hd
  simp at hd

/-- The same-day branch of the decision table, as a single conditional. -/
theorem load_data_fileinfos_same_day (fp : Filepaths) (S : Finset Char) :
    load_data_fileinfos fp (some S) true =
      if S \ {'G', 'R'} = ∅ ∧ 'G' ∈ S then [fp.nasa_daily_gps]
      else [fp.bkg_daily_combined] := by
  simp only [load_data_fileinfos, Bool.not_true, Bool.false_eq_true, if_false,
    beq_iff_eq, Finset.card_eq_zero]

/-- The historical branch of the decision table, as a single conditional. -/
theorem load_data_fileinfos_historical (fp : Filepaths) (S : Finset Char) :
    load_data_fileinfos fp (some S) false =
      if S \ {'G', 'R'} = ∅ then
        (if 'G' ∈ S then [fp.nasa_daily_gps] else []) ++
        (if 'R' ∈ S then [fp.nasa_daily_glonass] else [])
      else [fp.nasa_daily_combined] := by
  simp only [load_data_fileinfos, Bool.not_false, if_true, beq_iff_eq,
    Finset.card_eq_zero]

/-- A subset of `{'G', 'R'}` has as many elements as `{'G', 'R'}`-members
it contains. -/
theorem card_subset_GR (S : Finset Char) (hsub : S ⊆ {'G', 'R'}) :
    S.card = (if 'G' ∈ S then 1 else 0) + (if 'R' ∈ S then 1 else 0) := by
  have hmem : S ∈ ({'G', 'R'} : Finset Char).powerset := Finset.mem_powerset.mpr hsub
  fin_cases hmem <;> decide

/-! ## Claims -/

/-- C1, counterexample: at `2023-03-15T05:00:00Z` (day 074) with
`constellations = None` and every retrieval succeeding, `load_data` returns
4 paths, not 3, and the fourth comes from the secondary archive
(`igs-ftp.bkg.bund.de`), so the descriptors are not "each from the primary
archive and no other archive". -/
theorem C1_counterexample :
    (load_data (fun _ _ => Except.ok ()) "cache" ⟨2023, 74, 18000⟩ none false
        ⟨[], [], 0⟩).1 =
      Except.ok ["cache/nasa/BRDC00IGS_R_20230740000_01D_MN.rnx",
                 "cache/nasa/brdc0740.23n",
                 "cache/nasa/brdc0740.23g",
                 "cache/igs/BRDC00WRD_S_20230740000_01D_MN.rnx"] ∧
    ["cache/nasa/BRDC00IGS_R_20230740000_01D_MN.rnx",
     "cache/nasa/brdc0740.23n",
     "cache/nasa/brdc0740.23g",
     "cache/igs/BRDC00WRD_S_20230740000_01D_MN.rnx"].length ≠ 3 ∧
    "cache/igs/BRDC00WRD_S_20230740000_01D_MN.rnx" =
      rinex_path_of "cache" (get_filepaths ⟨2023, 74, 18000⟩).bkg_daily_combined ∧
    (get_filepaths ⟨2023, 74, 18000⟩).bkg_daily_combined.url ≠ "gdc.cddis.eosdis.nasa.gov" :=
  ⟨rfl, by decide, rfl, by decide⟩

/-- C1, amended: for every request with `constellations = None` that
returns successfully, `load_data` returns exactly 4 paths: the combined
multi-GNSS, GPS-only and GLONASS-only daily files from the primary archive
`gdc.cddis.eosdis.nasa.gov`, plus the combined daily file from the
secondary archive `igs-ftp.bkg.bund.de`, in the insertion order of the
`filepaths` dict. -/
theorem C1_none_returns_all_four (remote : String → String → Except String Unit)
    (ephdir : String) (t : Timestamp) (same_day : Bool) (s : ArchiveState)
    (ps : List String)
    (h : (load_data remote ephdir t none same_day s).1 = .ok ps) :
    ps = [rinex_path_of ephdir (get_filepaths t).nasa_daily_combined,
          rinex_path_of ephdir (get_filepaths t).nasa_daily_gps,
          rinex_path_of ephdir (get_filepaths t).nasa_daily_glonass,
          rinex_path_of ephdir (get_filepaths t).bkg_daily_combined] ∧
    ps.length = 4 ∧
    (get_filepaths t).nasa_daily_combined.url = "gdc.cddis.eosdis.nasa.gov" ∧
    (get_filepaths t).nasa_daily_gps.url = "gdc.cddis.eosdis.nasa.gov" ∧
    (get_filepaths t).nasa_daily_glonass.url = "gdc.cddis.eosdis.nasa.gov" ∧
    (get_filepaths t).bkg_daily_combined.url = "igs-ftp.bkg.bund.de" := by
  have hps := get_paths_seq_ok remote ephdir
    (load_data_fileinfos (get_filepaths t) none same_day) s ps h
  simp only [load_data_fileinfos, Filepaths.values, List.map] at hps
  refine ⟨hps, by rw [hps]; rfl, ?_, ?_, ?_, ?_⟩ <;> simp [get_filepaths]

theorem C1_none_returns_all_four_witness :
    ["cache/nasa/BRDC00IGS_R_20230740000_01D_MN.rnx",
     "cache/nasa/brdc0740.23n",
     "cache/nasa/brdc0740.23g",
     "cache/igs/BRDC00WRD_S_20230740000_01D_MN.rnx"] =
      [rinex_path_of "cache" (get_filepaths ⟨2023, 74, 18000⟩).nasa_daily_combined,
       rinex_path_of "cache" (get_filepaths ⟨2023, 74, 18000⟩).nasa_daily_gps,
       rinex_path_of "cache" (get_filepaths ⟨2023, 74, 18000⟩).nasa_daily_glonass,
       rinex_path_of "cache" (get_filepaths ⟨2023, 74, 18000⟩).bkg_daily_combined] ∧
    ["cache/nasa/BRDC00IGS_R_20230740000_01D_MN.rnx",
     "cache/nasa/brdc0740.23n",
     "cache/nasa/brdc0740.23g",
     "cache/igs/BRDC00WRD_S_20230740000_01D_MN.rnx"].length = 4 ∧
    (get_filepaths ⟨2023, 74, 18000⟩).nasa_daily_combined.url = "gdc.cddis.eosdis.nasa.gov" ∧
    (get_filepaths ⟨2023, 74, 18000⟩).nasa_daily_gps.url = "gdc.cddis.eosdis.nasa.gov" ∧
    (get_filepaths ⟨2023, 74, 18000⟩).nasa_daily_glonass.url = "gdc.cddis.eosdis.nasa.gov" ∧
    (get_filepaths ⟨2023, 74, 18000⟩).bkg_daily_combined.url = "igs-ftp.bkg.bund.de" :=
  C1_none_returns_all_four (fun _ _ => Except.ok ()) "cache" ⟨2023, 74, 18000⟩ false
    ⟨[], [], 0⟩ _ rfl

/-- C2, counterexample: the same-day request for `{'G', 'R'}` (a set
different from `{'G'}`) is served by the GPS-only file from the primary
archive, not by the combined file from the secondary archive. -/
theorem C2_counterexample :
    (load_data (fun _ _ => Except.ok ()) "cache" ⟨2023, 74, 18000⟩
        (some {'G', 'R'}) true ⟨[], [], 0⟩).1 =
      Except.ok ["cache/nasa/brdc0740.23n"] ∧
    "cache/nasa/brdc0740.23n" =
      rinex_path_of "cache" (get_filepaths ⟨2023, 74, 18000⟩).nasa_daily_gps ∧
    load_data_fileinfos (get_filepaths ⟨2023, 74, 18000⟩) (some {'G', 'R'}) true =
      [(get_filepaths ⟨2023, 74, 18000⟩).nasa_daily_gps] ∧
    ({'G', 'R'} : Finset Char) ≠ {'G'} :=
  ⟨rfl, rfl, rfl, by decide⟩

/-- C2, amended: every same-day request with a specified constellation set
yields exactly 1 path; the selected descriptor is the GPS-only file at the
primary archive iff the set is a subset of `{'G', 'R'}` containing `'G'`
(not only for exactly `{'G'}`), and otherwise it is the combined file at
the secondary archive. -/
theorem C2_same_day_selection (remote : String → String → Except String Unit)
    (ephdir : String) (t : Timestamp) (S : Finset Char) (s : ArchiveState)
    (ps : List String)
    (h : (load_data remote ephdir t (some S) true s).1 = .ok ps) :
    ps.length = 1 ∧
    ps = (load_data_fileinfos (get_filepaths t) (some S) true).map (rinex_path_of ephdir) ∧
    (load_data_fileinfos (get_filepaths t) (some S) true =
        [(get_filepaths t).nasa_daily_gps] ↔ (S \ {'G', 'R'} = ∅ ∧ 'G' ∈ S)) ∧
    (¬(S \ {'G', 'R'} = ∅ ∧ 'G' ∈ S) →
      load_data_fileinfos (get_filepaths t) (some S) true =
        [(get_filepaths t).bkg_daily_combined]) := by
  have hps := get_paths_seq_ok remote ephdir
    (load_data_fileinfos (get_filepaths t) (some S) true) s ps h
  rw [load_data_fileinfos_same_day] at hps
  by_cases hcond : S \ {'G', 'R'} = ∅ ∧ 'G' ∈ S
  · rw [if_pos hcond] at hps
    refine ⟨by rw [hps]; rfl, ?_, ?_, fun hn => absurd hcond hn⟩
    · rw [load_data_fileinfos_same_day, if_pos hcond, hps]
    · rw [load_data_fileinfos_same_day, if_pos hcond]
      simp [hcond]
  · rw [if_neg hcond] at hps
    refine ⟨by rw [hps]; rfl, ?_, ?_, fun _ => ?_⟩
    · rw [load_data_fileinfos_same_day, if_neg hcond, hps]
    · rw [load_data_fileinfos_same_day, if_neg hcond]
      simp only [hcond, iff_false]
      intro heq
      exact gps_fileinfo_ne_bkg t (List.cons.injEq _ _ _ _ ▸ heq).1.symm
    · rw [load_data_fileinfos_same_day, if_neg hcond]

theorem C2_same_day_selection_witness :
    (["cache/nasa/brdc0740.23n"] : List String).length = 1 ∧
    ["cache/nasa/brdc0740.23n"] =
      (load_data_fileinfos (get_filepaths ⟨2023, 74, 18000⟩) (some {'G'}) true).map
        (rinex_path_of "cache") ∧
    (load_data_fileinfos (get_filepaths ⟨2023, 74, 18000⟩) (some {'G'}) true =
        [(get_filepaths ⟨2023, 74, 18000⟩).nasa_daily_gps] ↔
      (({'G'} : Finset Char) \ {'G', 'R'} = ∅ ∧ 'G' ∈ ({'G'} : Finset Char))) ∧
    (¬(({'G'} : Finset Char) \ {'G', 'R'} = ∅ ∧ 'G' ∈ ({'G'} : Finset Char)) →
      load_data_fileinfos (get_filepaths ⟨2023, 74, 18000⟩) (some {'G'}) true =
        [(get_filepaths ⟨2023, 74, 18000⟩).bkg_daily_combined]) :=
  C2_same_day_selection (fun _ _ => Except.ok ()) "cache" ⟨2023, 74, 18000⟩ {'G'}
    ⟨[], [], 0⟩ _ rfl

/-- C3, confirmed: for historical requests with `S ⊆ {'G', 'R'}` the
selected descriptors are the GPS-only file iff `'G' ∈ S` followed by the
GLONASS-only file iff `'R' ∈ S` (0, 1 or 2 paths, as many as `{'G', 'R'}`
members are present); any constellation outside `{'G', 'R'}` forces exactly
one descriptor, the combined file from the primary archive. -/
theorem C3_historical_selection (remote : String → String → Except String Unit)
    (ephdir : String) (t : Timestamp) (S : Finset Char) (s : ArchiveState)
    (ps : List String)
    (h : (load_data remote ephdir t (some S) false s).1 = .ok ps) :
    ps = (load_data_fileinfos (get_filepaths t) (some S) false).map (rinex_path_of ephdir) ∧
    (S \ {'G', 'R'} = ∅ →
      load_data_fileinfos (get_filepaths t) (some S) false =
        (if 'G' ∈ S then [(get_filepaths t).nasa_daily_gps] else []) ++
        (if 'R' ∈ S then [(get_filepaths t).nasa_daily_glonass] else []) ∧
      ps.length = (S ∩ {'G', 'R'}).card ∧
      ((get_filepaths t).nasa_daily_gps ∈
          load_data_fileinfos (get_filepaths t) (some S) false ↔ 'G' ∈ S) ∧
      ((get_filepaths t).nasa_daily_glonass ∈
          load_data_fileinfos (get_filepaths t) (some S) false ↔ 'R' ∈ S)) ∧
    (S \ {'G', 'R'} ≠ ∅ →
      load_data_fileinfos (get_filepaths t) (some S) false =
        [(get_filepaths t).nasa_daily_combined] ∧
      (get_filepaths t).nasa_daily_combined.url = "gdc.cddis.eosdis.nasa.gov" ∧
      ps.length = 1) := by
  have hps := get_paths_seq_ok remote ephdir
    (load_data_fileinfos (get_filepaths t) (some S) false) s ps h
  refine ⟨hps, fun hsub => ?_, fun hnsub => ?_⟩
  · have hsel := load_data_fileinfos_historical (get_filepaths t) S
    rw [if_pos hsub] at hsel
    have hsubset : S ⊆ {'G', 'R'} := Finset.sdiff_eq_empty_iff_subset.mp hsub
    have hinter : S ∩ {'G', 'R'} = S := Finset.inter_eq_left.mpr hsubset
    have hcard := card_subset_GR S hsubset
    refine ⟨hsel, ?_, ?_, ?_⟩
    · rw [hps, hsel, hinter, hcard]
      by_cases hG : 'G' ∈ S <;> by_cases hR : 'R' ∈ S <;> simp [hG, hR]
    · rw [hsel]
      by_cases hG : 'G' ∈ S <;> by_cases hR : 'R' ∈ S <;>
        simp [hG, hR, gps_fileinfo_ne_glonass t]
    · rw [hsel]
      by_cases hG : 'G' ∈ S <;> by_cases hR : 'R' ∈ S <;>
        simp [hG, hR, (gps_fileinfo_ne_glonass t).symm]
  · have hsel := load_data_fileinfos_historical (get_filepaths t) S
    rw [if_neg hnsub] at hsel
    refine ⟨hsel, by simp [get_filepaths], by rw [hps, hsel]; rfl⟩

theorem C3_historical_selection_witness :
    (["cache/nasa/brdc0740.23n", "cache/nasa/brdc0740.23g"] : List String) =
      (load_data_fileinfos (get_filepaths ⟨2023, 74, 18000⟩) (some {'G', 'R'}) false).map
        (rinex_path_of "cache") ∧
    (({'G', 'R'} : Finset Char) \ {'G', 'R'} = ∅ →
      load_data_fileinfos (get_filepaths ⟨2023, 74, 18000⟩) (some {'G', 'R'}) false =
        (if 'G' ∈ ({'G', 'R'} : Finset Char) then
          [(get_filepaths ⟨2023, 74, 18000⟩).nasa_daily_gps] else []) ++
        (if 'R' ∈ ({'G', 'R'} : Finset Char) then
          [(get_filepaths ⟨2023, 74, 18000⟩).nasa_daily_glonass] else []) ∧
      (["cache/nasa/brdc0740.23n", "cache/nasa/brdc0740.23g"] : List String).length =
        (({'G', 'R'} : Finset Char) ∩ {'G', 'R'}).card ∧
      ((get_filepaths ⟨2023, 74, 18000⟩).nasa_daily_gps ∈
          load_data_fileinfos (get_filepaths ⟨2023, 74, 18000⟩) (some {'G', 'R'}) false ↔
        'G' ∈ ({'G', 'R'} : Finset Char)) ∧
      ((get_filepaths ⟨2023, 74, 18000⟩).nasa_daily_glonass ∈
          load_data_fileinfos (get_filepaths ⟨2023, 74, 18000⟩) (some {'G', 'R'}) false ↔
        'R' ∈ ({'G', 'R'} : Finset Char))) ∧
    (({'G', 'R'} : Finset Char) \ {'G', 'R'} ≠ ∅ →
      load_data_fileinfos (get_filepaths ⟨2023, 74, 18000⟩) (some {'G', 'R'}) false =
        [(get_filepaths ⟨2023, 74, 18000⟩).nasa_daily_combined] ∧
      (get_filepaths ⟨2023, 74, 18000⟩).nasa_daily_combined.url = "gdc.cddis.eosdis.nasa.gov" ∧
      (["cache/nasa/brdc0740.23n", "cache/nasa/brdc0740.23g"] : List String).length = 1) :=
  C3_historical_selection (fun _ _ => Except.ok ()) "cache" ⟨2023, 74, 18000⟩ {'G', 'R'}
    ⟨[], [], 0⟩ _ rfl

theorem not_tsLe_iff (a b : Timestamp) : ¬ tsLe a b ↔ tsLt b a := by
  unfold tsLe tsLt
  omega

/-- C4, confirmed: the legacy-named GPS-only and GLONASS-only filenames
carry extension `.Z` exactly for data timestamps strictly before
2020-12-01T00:00:00Z and `.gz` exactly on or after that instant (the
comparison takes only the requested data timestamp, no download time is
involved), while the two combined `BRDC0...` filenames end in `.gz` for
every timestamp. -/
theorem C4_format_era (t : Timestamp) :
    (get_filetype t = ".Z" ↔ tsLt t brdc_switch_time) ∧
    (get_filetype t = ".gz" ↔ tsLe brdc_switch_time t) ∧
    (∃ a, (get_filepaths t).nasa_daily_gps.filepath = a ++ get_filetype t) ∧
    (∃ a, (get_filepaths t).nasa_daily_glonass.filepath = a ++ get_filetype t) ∧
    (∃ a, (get_filepaths t).nasa_daily_combined.filepath = a ++ ".gz") ∧
    (∃ a, (get_filepaths t).bkg_daily_combined.filepath = a ++ ".gz") := by
  refine ⟨?_, ?_, ?_, ?_, ?_, ?_⟩
  · unfold get_filetype
    by_cases hle : tsLe brdc_switch_time t
    · rw [if_pos hle]
      constructor
      · intro hzz; exact absurd hzz (by decide)
      · intro hlt; exact absurd hle ((not_tsLe_iff _ _).mpr hlt)
    · rw [if_neg hle]
      exact ⟨fun _ => (not_tsLe_iff _ _).mp hle, fun _ => rfl⟩
  · unfold get_filetype
    by_cases hle : tsLe brdc_switch_time t
    · rw [if_pos hle]
      exact ⟨fun _ => hle, fun _ => rfl⟩
    · rw [if_neg hle]
      constructor
      · intro hzz; exact absurd hzz.symm (by decide)
      · intro hh; exact absurd hh hle
  · exact ⟨"gnss/data/daily/" ++ toString t.tm_year ++ "/brdc/" ++ "brdc" ++
      zfill3 (toString t.tm_yday) ++ "0." ++ lastTwo (toString t.tm_year) ++ "n", rfl⟩
  · exact ⟨"gnss/data/daily/" ++ toString t.tm_year ++ "/brdc/" ++ "brdc" ++
      zfill3 (toString t.tm_yday) ++ "0." ++ lastTwo (toString t.tm_year) ++ "g", rfl⟩
  · refine ⟨"gnss/data/daily/" ++ toString t.tm_year ++ "/brdc/" ++ "BRDC00IGS_R_" ++
      toString t.tm_year ++ zfill3 (toString t.tm_yday) ++ "0000_01D_MN.rnx", ?_⟩
    rw [string_append_assoc]; rfl
  · refine ⟨"/IGS/BRDC/" ++ toString t.tm_year ++ "/" ++ zfill3 (toString t.tm_yday) ++
      "/" ++ "BRDC00WRD_S_" ++ toString t.tm_year ++ zfill3 (toString t.tm_yday) ++
      "0000_01D_MN.rnx", ?_⟩
    rw [string_append_assoc]; rfl

/-- C5, counterexample: the connection opened for the primary archive host
`gdc.cddis.eosdis.nasa.gov` uses FTP over explicit TLS and the connection
opened for the secondary archive host `igs-ftp.bkg.bund.de` uses plain
FTP — the opposite assignment of the one claimed. -/
theorem C5_counterexample :
    ((retrieve_file (fun _ _ => Except.ok ()) "gdc.cddis.eosdis.nasa.gov"
        "gnss/data/daily/2023/brdc" "BRDC00IGS_R_20230740000_01D_MN.rnx.gz"
        "cache/nasa/BRDC00IGS_R_20230740000_01D_MN.rnx.gz"
        ⟨[], [], 0⟩).2).connections.map Connection.protocol = [Protocol.tls] ∧
    ((retrieve_file (fun _ _ => Except.ok ()) "igs-ftp.bkg.bund.de"
        "/IGS/BRDC/2023/074" "BRDC00WRD_S_20230740000_01D_MN.rnx.gz"
        "cache/igs/BRDC00WRD_S_20230740000_01D_MN.rnx.gz"
        ⟨[], [], 0⟩).2).connections.map Connection.protocol = [Protocol.plain] ∧
    Protocol.tls ≠ Protocol.plain :=
  ⟨rfl, rfl, by decide⟩

/-- C5, amended: every `retrieve_file` call opens exactly one connection,
keyed strictly by host identity: FTP over explicit TLS (login, then
protected data channel) exactly when the host is the primary archive
`gdc.cddis.eosdis.nasa.gov`, and plain FTP (after login) for every other
host, including the secondary archive. -/
theorem C5_protocol_by_host (remote : String → String → Except String Unit)
    (url directory filename dest : String) (s : ArchiveState) :
    ∃ c : Connection,
      ((retrieve_file remote url directory filename dest s).2).connections =
        c :: s.connections ∧
      c.url = url ∧ c.loggedIn = true ∧
      c.protocol =
        (if url = "gdc.cddis.eosdis.nasa.gov" then Protocol.tls else Protocol.plain) ∧
      (c.protPrivate = true ↔ c.protocol = Protocol.tls) := by
  cases hs : url == "gdc.cddis.eosdis.nasa.gov" <;>
    cases hr : remote url (directory ++ "/" ++ filename) <;>
      simp only [retrieve_file, hs, hr, connect, closeCurrent, decompress_file,
        Bool.false_eq_true, if_false, if_true] <;>
      refine ⟨_, rfl, rfl, rfl, ?_, by simp⟩
  · rw [if_neg (beq_eq_false_iff_ne.mp hs)]
  · rw [if_neg (beq_eq_false_iff_ne.mp hs)]
  · rw [if_pos (beq_iff_eq.mp hs)]
  · rw [if_pos (beq_iff_eq.mp hs)]

/-- C6, confirmed: `get_rinex_path` is idempotent: when a first call
succeeded and its decompressed result exists on disk, a second call with
the same descriptor is a pure cache hit — it returns the identical path,
leaves the state untouched, opens no connection and attempts no
transfer. -/
theorem C6_idempotent (remote : String → String → Except String Unit)
    (ephdir : String) (fi : FileInfo) (s : ArchiveState) (p : String)
    (s' : ArchiveState)
    (h1 : get_rinex_path remote ephdir fi s = (.ok p, s'))
    (h2 : p ∈ s'.files) :
    get_rinex_path remote ephdir fi s' = (.ok p, s') ∧
    ((get_rinex_path remote ephdir fi s').2).connections = s'.connections ∧
    ((get_rinex_path remote ephdir fi s').2).retrAttempts = s'.retrAttempts := by
  have hp : p = rinex_path_of ephdir fi :=
    get_rinex_path_ok_path remote ephdir fi s p (by rw [h1])
  subst hp
  have hmain : get_rinex_path remote ephdir fi s' = (.ok (rinex_path_of ephdir fi), s') := by
    simp only [get_rinex_path, if_pos h2]
  exact ⟨hmain, by rw [hmain], by rw [hmain]⟩

theorem C6_idempotent_witness :
    get_rinex_path (fun _ _ => Except.ok ()) "cache"
        (get_filepaths ⟨2023, 74, 18000⟩).nasa_daily_gps
        ⟨["cache/nasa/brdc0740.23n"], [], 0⟩ =
      (.ok "cache/nasa/brdc0740.23n", ⟨["cache/nasa/brdc0740.23n"], [], 0⟩) ∧
    ((get_rinex_path (fun _ _ => Except.ok ()) "cache"
        (get_filepaths ⟨2023, 74, 18000⟩).nasa_daily_gps
        ⟨["cache/nasa/brdc0740.23n"], [], 0⟩).2).connections =
      (⟨["cache/nasa/brdc0740.23n"], [], 0⟩ : ArchiveState).connections ∧
    ((get_rinex_path (fun _ _ => Except.ok ()) "cache"
        (get_filepaths ⟨2023, 74, 18000⟩).nasa_daily_gps
        ⟨["cache/nasa/brdc0740.23n"], [], 0⟩).2).retrAttempts =
      (⟨["cache/nasa/brdc0740.23n"], [], 0⟩ : ArchiveState).retrAttempts :=
  C6_idempotent (fun _ _ => Except.ok ()) "cache"
    (get_filepaths ⟨2023, 74, 18000⟩).nasa_daily_gps
    ⟨["cache/nasa/brdc0740.23n"], [], 0⟩ "cache/nasa/brdc0740.23n"
    ⟨["cache/nasa/brdc0740.23n"], [], 0⟩ rfl (by decide)

/-- C7, confirmed: when the server rejects the transfer, `retrieve_file`
removes the partially written destination file, raises a retrieval failure
whose message names both the remote path and the host, and attempts the
transfer exactly once (no automatic retry). -/
theorem C7_transfer_failure (remote : String → String → Except String Unit)
    (url directory filename dest : String) (s : ArchiveState) (e : String)
    (h : remote url (directory ++ "/" ++ filename) = .error e) :
    (retrieve_file remote url directory filename dest s).1 =
      .error (e ++ " Failed to retrieve " ++ (directory ++ "/" ++ filename) ++
        " from " ++ url) ∧
    dest ∉ ((retrieve_file remote url directory filename dest s).2).files ∧
    ((retrieve_file remote url directory filename dest s).2).retrAttempts =
      s.retrAttempts + 1 := by
  refine ⟨?_, ?_, ?_⟩ <;>
    simp [retrieve_file, h, removeFile, List.mem_filter]

theorem C7_transfer_failure_witness :
    (retrieve_file (fun _ _ => Except.error "550 Permission denied")
        "gdc.cddis.eosdis.nasa.gov" "gnss/data/daily/2023/brdc" "brdc0740.23n.gz"
        "cache/nasa/brdc0740.23n.gz" ⟨[], [], 0⟩).1 =
      .error ("550 Permission denied" ++ " Failed to retrieve " ++
        ("gnss/data/daily/2023/brdc" ++ "/" ++ "brdc0740.23n.gz") ++
        " from " ++ "gdc.cddis.eosdis.nasa.gov") ∧
    "cache/nasa/brdc0740.23n.gz" ∉
      ((retrieve_file (fun _ _ => Except.error "550 Permission denied")
        "gdc.cddis.eosdis.nasa.gov" "gnss/data/daily/2023/brdc" "brdc0740.23n.gz"
        "cache/nasa/brdc0740.23n.gz" ⟨[], [], 0⟩).2).files ∧
    ((retrieve_file (fun _ _ => Except.error "550 Permission denied")
        "gdc.cddis.eosdis.nasa.gov" "gnss/data/daily/2023/brdc" "brdc0740.23n.gz"
        "cache/nasa/brdc0740.23n.gz" ⟨[], [], 0⟩).2).retrAttempts =
      (⟨[], [], 0⟩ : ArchiveState).retrAttempts + 1 :=
  C7_transfer_failure (fun _ _ => Except.error "550 Permission denied")
    "gdc.cddis.eosdis.nasa.gov" "gnss/data/daily/2023/brdc" "brdc0740.23n.gz"
    "cache/nasa/brdc0740.23n.gz" ⟨[], [], 0⟩ "550 Permission denied" rfl

/-- C8, counterexample: after a failing transfer, the connection opened by
`retrieve_file` is left unclosed when the failure propagates — the socket
is not closed on the failure path. -/
theorem C8_counterexample :
    ((retrieve_file (fun _ _ => Except.error "550 Permission denied")
        "gdc.cddis.eosdis.nasa.gov" "gnss/data/daily/2023/brdc" "brdc0740.23n.gz"
        "cache/nasa/brdc0740.23n.gz" ⟨[], [], 0⟩).2).connections =
      [{ url := "gdc.cddis.eosdis.nasa.gov", protocol := .tls, loggedIn := true,
         protPrivate := true, closed := false }] ∧
    ((retrieve_file (fun _ _ => Except.error "550 Permission denied")
        "gdc.cddis.eosdis.nasa.gov" "gnss/data/daily/2023/brdc" "brdc0740.23n.gz"
        "cache/nasa/brdc0740.23n.gz" ⟨[], [], 0⟩).2).connections.map
      (fun c => c.closed) = [false] ∧
    false ≠ true :=
  ⟨rfl, rfl, by decide⟩

/-- C8, amended: `retrieve_file` opens exactly one socket per call and the
socket is closed before return exactly when the transfer succeeds; on the
server-error failure path the socket is left open when the failure
propagates.  Previously opened sockets are untouched. -/
theorem C8_socket_closure (remote : String → String → Except String Unit)
    (url directory filename dest : String) (s : ArchiveState) :
    ((retrieve_file remote url directory filename dest s).2).connections.map
        (fun c => c.closed) =
      (match remote url (directory ++ "/" ++ filename) with
       | .ok _ => true
       | .error _ => false) :: s.connections.map (fun c => c.closed) := by
  cases hs : url == "gdc.cddis.eosdis.nasa.gov" <;>
    cases hr : remote url (directory ++ "/" ++ filename) <;>
      simp [retrieve_file, hs, hr, connect, closeCurrent, decompress_file]

/-- C9, counterexample: at `2023-03-15T05:00:00Z`, the historical request
with the empty constellation set yields no paths while the request with
`constellations = None` yields four, so empty is not treated like `None`. -/
theorem C9_counterexample :
    (load_data (fun _ _ => Except.ok ()) "cache" ⟨2023, 74, 18000⟩ (some ∅) false
        ⟨[], [], 0⟩).1 = Except.ok [] ∧
    (load_data (fun _ _ => Except.ok ()) "cache" ⟨2023, 74, 18000⟩ none false
        ⟨[], [], 0⟩).1 =
      Except.ok ["cache/nasa/BRDC00IGS_R_20230740000_01D_MN.rnx",
                 "cache/nasa/brdc0740.23n",
                 "cache/nasa/brdc0740.23g",
                 "cache/igs/BRDC00WRD_S_20230740000_01D_MN.rnx"] ∧
    ([] : List String) ≠
      ["cache/nasa/BRDC00IGS_R_20230740000_01D_MN.rnx",
       "cache/nasa/brdc0740.23n",
       "cache/nasa/brdc0740.23g",
       "cache/igs/BRDC00WRD_S_20230740000_01D_MN.rnx"] :=
  ⟨rfl, rfl, by decide⟩

/-- C9, amended: an empty satellite list maps to the empty constellation
set, which is NOT treated like `None`: a historical request with the empty
set selects no descriptor at all (and performs no I/O), a same-day request
with the empty set selects only the combined file of the secondary
archive, whereas `None` selects all four known templates. -/
theorem C9_empty_set_not_all (remote : String → String → Except String Unit)
    (ephdir : String) (t : Timestamp) (s : ArchiveState) :
    get_constellations (some []) = some ∅ ∧
    load_data remote ephdir t (some ∅) false s = (.ok [], s) ∧
    load_data_fileinfos (get_filepaths t) (some ∅) true =
      [(get_filepaths t).bkg_daily_combined] ∧
    load_data_fileinfos (get_filepaths t) none false = (get_filepaths t).values ∧
    load_data_fileinfos (get_filepaths t) (some ∅) false ≠
      load_data_fileinfos (get_filepaths t) none false := by
  have hempty : load_data_fileinfos (get_filepaths t) (some ∅) false = [] := rfl
  refine ⟨rfl, rfl, rfl, rfl, ?_⟩
  rw [hempty]
  simp [load_data_fileinfos, Filepaths.values]

/-- C10, confirmed: for a file whose extension is neither `.gz` nor `.Z`,
`decompress_file` only deletes the compressed input: no error is raised
(the function is total), and the would-be decompressed output is not
created (it exists afterwards only if it existed before). -/
theorem C10_unknown_extension (filepath : String) (s : ArchiveState)
    (h1 : (splitext filepath).2 ≠ ".gz") (h2 : (splitext filepath).2 ≠ ".Z") :
    decompress_file filepath s = { s with files := removeFile filepath s.files } ∧
    filepath ∉ (decompress_file filepath s).files ∧
    ((splitext filepath).1 ∉ s.files →
      (splitext filepath).1 ∉ (decompress_file filepath s).files) := by
  have hb1 : ((splitext filepath).2 == ".gz") = false := beq_eq_false_iff_ne.mpr h1
  have hb2 : ((splitext filepath).2 == ".Z") = false := beq_eq_false_iff_ne.mpr h2
  have hmain : decompress_file filepath s =
      { s with files := removeFile filepath s.files } := by
    simp only [decompress_file, hb1, hb2, Bool.false_eq_true, if_false]
  refine ⟨hmain, ?_, fun hnot => ?_⟩
  · rw [hmain]
    simp [removeFile, List.mem_filter]
  · rw [hmain]
    intro hmem
    exact hnot (List.mem_of_mem_filter hmem)

theorem C10_unknown_extension_witness :
    decompress_file "cache/nasa/brdc0740.23n.tar"
        ⟨["cache/nasa/brdc0740.23n.tar"], [], 0⟩ =
      { (⟨["cache/nasa/brdc0740.23n.tar"], [], 0⟩ : ArchiveState) with
        files := removeFile "cache/nasa/brdc0740.23n.tar"
          ["cache/nasa/brdc0740.23n.tar"] } ∧
    "cache/nasa/brdc0740.23n.tar" ∉
      (decompress_file "cache/nasa/brdc0740.23n.tar"
        ⟨["cache/nasa/brdc0740.23n.tar"], [], 0⟩).files ∧
    ((splitext "cache/nasa/brdc0740.23n.tar").1 ∉
        (⟨["cache/nasa/brdc0740.23n.tar"], [], 0⟩ : ArchiveState).files →
      (splitext "cache/nasa/brdc0740.23n.tar").1 ∉
        (decompress_file "cache/nasa/brdc0740.23n.tar"
          ⟨["cache/nasa/brdc0740.23n.tar"], [], 0⟩).files) :=
  C10_unknown_extension "cache/nasa/brdc0740.23n.tar"
    ⟨["cache/nasa/brdc0740.23n.tar"], [], 0⟩ (by decide) (by decide)

end EphemerisDownloader
